import Mathlib

/-!
Verification of the per-call session lifecycle of the phone-assistant webhook
relay (`app.py`): the `/voice`, `/gather_input` and `/status_callback` Flask
handlers, the `conversations` dictionary, and the `send_email_summary` helper.

Modelling conventions:
* The `conversations` dict is an association list `Store` from call sid to
  `Session`; Python's in-place mutation of a session object is modelled by
  writing the updated session back into the store.
* Transcript lines `f"Bot: {x}"` / `f"Caller: {x}"` are kept structured as a
  `Line` (speaker tag + text); `renderLine` produces the literal Python string.
* External effects are oracles passed as arguments: the Gemini chat call and
  the summary call are `Option String` (`none` = the SDK raised an exception,
  `some r` = it returned text `r`), the SMTP transaction is
  `Except String Unit`.  Python exception propagation is the `Except` monad:
  a `try/except` block is a `match` on the oracle.
* The TwiML response built on `resp` is the list of verbs in emission order.
* `Session.listening` is ghost state recording whether the handler's response
  armed a `<Gather>` (`true`) or hung up (`false`); it mirrors the emitted
  response and carries the provider-side fact that another speech webhook can
  only be delivered while the call is still gathering.
-/

namespace PhoneAssistant

set_option maxRecDepth 16384

/-- Speaker tag of a transcript line (`"Bot: "` vs `"Caller: "`). -/
inductive Speaker
  | bot
  | caller
deriving DecidableEq

/-- One speaker-tagged transcript line. -/
structure Line where
  speaker : Speaker
  text : String
deriving DecidableEq

/-- The literal Python transcript string for a line. -/
def renderLine (l : Line) : String :=
  (match l.speaker with
   | Speaker.bot => "Bot: "
   | Speaker.caller => "Caller: ") ++ l.text

/-- One entry of `llm_history`: a dict with keys `role` and `parts`. -/
structure Msg where
  role : String
  parts : String
deriving DecidableEq

/-- Per-call conversation state stored in `conversations[call_sid]`, plus the
ghost `listening` flag (see module docstring). -/
structure Session where
  transcript : List Line
  llm_history : List Msg
  listening : Bool
deriving DecidableEq

/-- The `conversations` dictionary: an association list keyed by call sid. -/
def Store := List (String × Session)

instance : DecidableEq Store := fun a b => List.hasDecEq a b

/-- Dictionary lookup `conversations.get(call_sid)` / `call_sid in conversations`. -/
def Store.find : Store → String → Option Session
  | [], _ => none
  | (k, v) :: rest, sid => if k = sid then some v else Store.find rest sid

/-- Dictionary write `conversations[call_sid] = sess` (replace or insert). -/
def Store.set : Store → String → Session → Store
  | [], sid, sess => [(sid, sess)]
  | (k, v) :: rest, sid, sess =>
      if k = sid then (sid, sess) :: rest else (k, v) :: Store.set rest sid sess

/-- Dictionary deletion `del conversations[call_sid]`. -/
def Store.erase (s : Store) (sid : String) : Store :=
  s.filter (fun p => p.1 ≠ sid)

/-- Environment configuration visible to the handlers. `gemini = true` models
`GEMINI_MODEL` being configured (API key present). -/
structure Config where
  gemini : Bool
  sender_email : Option String
  sender_password : Option String
  receiver_email : Option String
deriving DecidableEq

/-- One verb appended to the TwiML `VoiceResponse`. -/
inductive Verb
  | say (text : String)
  | gather (action : String)
  | hangup
deriving DecidableEq

/-- A TwiML response: the verbs in emission order. -/
abbrev TwiML := List Verb

/-- The `action` URL passed to `resp.gather` for a call sid. -/
def gatherAction (call_sid : String) : String :=
  "/gather_input?CallSid=" ++ call_sid

/-- `SYSTEM_PROMPT_RECEPTIONIST` from `app.py` (triple-quoted, so it begins and
ends with a newline). -/
def SYSTEM_PROMPT_RECEPTIONIST : String :=
  "\nYou are a professional, polite, and efficient virtual receptionist named \"Your Virtual Assistant\" for [Your Name/Company Name].\nYour primary goal is to gather information from callers, summarize their requests concisely, and ensure they feel heard.\nDo not attempt to resolve complex issues directly or transfer calls.\nAsk clarifying questions only when necessary to get the required information (caller name, reason for calling, contact info).\nKeep your responses brief and to the point.\nStart by greeting the caller and asking the purpose of their call.\n"

/-- `SYSTEM_PROMPT_SUMMARIZER` from `app.py`. -/
def SYSTEM_PROMPT_SUMMARIZER : String :=
  "\nSummarize the following phone call conversation into a concise, actionable email for [Your Name].\nInclude the caller name, their reason for calling, any contact details provided, and key actions needed.\nFormat it clearly for an email body.\n\nConversation:\n"

/-- The llm_history entry created at session start. -/
def systemMsg : Msg :=
  { role := "user", parts := SYSTEM_PROMPT_RECEPTIONIST }

/-- `initial_greeting` in the `/voice` handler. -/
def initial_greeting : String :=
  "Hello, thank you for calling. Please state the purpose of your call."

/-- Canned apology when `gather_input` sees an untracked call sid. -/
def unknown_call_message : String :=
  "I'm sorry, an error occurred. Please try again."

/-- Canned apology when the Gemini chat call raises. -/
def trouble_message : String :=
  "I'm sorry, I'm having trouble understanding right now. Please try again or hang up."

/-- Acknowledgment spoken when `GEMINI_MODEL` is not configured. -/
def ack_message : String :=
  "Thank you. I have received your message."

/-- Farewell spoken when no speech was detected. -/
def farewell_message : String :=
  "Thank you for calling. Goodbye."

/-- The session created for a brand-new call sid in `/voice` (after the
greeting has been said and appended to the transcript). -/
def freshSession : Session :=
  { transcript := [{ speaker := Speaker.bot, text := initial_greeting }]
    llm_history := [systemMsg]
    listening := true }

/-- The `/voice` handler: returns the updated store and the TwiML response. -/
def voice (store : Store) (call_sid : String) : Store × TwiML :=
  match store.find call_sid with
  | none =>
      (store.set call_sid freshSession,
       [Verb.say initial_greeting, Verb.gather (gatherAction call_sid)])
  | some _ =>
      (store, [Verb.gather (gatherAction call_sid)])

/-- `request.values.get('SpeechResult')` rendered through an f-string:
a missing field prints as the literal `None`. -/
def renderSpeech : Option String → String
  | none => "None"
  | some s => s

/-- Python truthiness of `speech_result`: present and non-empty. -/
def speechTruthy : Option String → Bool
  | none => false
  | some s => s ≠ ""

/-- The `/gather_input` handler.  `chatOutcome` is the Gemini chat oracle for
this request (`none` = the API call raised). -/
def gather_input (cfg : Config) (chatOutcome : Option String)
    (store : Store) (call_sid : String) (speech_result : Option String) :
    Store × TwiML :=
  match store.find call_sid with
  | none =>
      (store, [Verb.say unknown_call_message, Verb.hangup])
  | some sess =>
      let sess1 : Session :=
        { sess with
          transcript :=
            sess.transcript ++ [{ speaker := Speaker.caller, text := renderSpeech speech_result }] }
      if speechTruthy speech_result && cfg.gemini then
        let sess2 : Session :=
          { sess1 with llm_history := sess1.llm_history ++ [{ role := "user", parts := renderSpeech speech_result }] }
        match chatOutcome with
        | some reply =>
            let sess3 : Session :=
              { transcript := sess2.transcript ++ [{ speaker := Speaker.bot, text := reply }]
                llm_history := sess2.llm_history ++ [{ role := "model", parts := reply }]
                listening := true }
            (store.set call_sid sess3,
             [Verb.say reply, Verb.gather (gatherAction call_sid)])
        | none =>
            (store.set call_sid { sess2 with listening := false },
             [Verb.say trouble_message, Verb.hangup])
      else if !cfg.gemini then
        (store.set call_sid { sess1 with listening := false },
         [Verb.say ack_message, Verb.hangup])
      else
        (store.set call_sid { sess1 with listening := false },
         [Verb.say farewell_message, Verb.hangup])

/-- What `send_email_summary` reported (by logging). -/
inductive MailLog
  | notConfigured
  | sentOk
  | sendFailed (e : String)
deriving DecidableEq

/-- `send_email_summary(call_sid, summary_content)`.  `transport` is the SMTP
oracle (`Except.error e` = the SMTP transaction raised `e`); the result is in
`Except` so that an uncaught exception would show up as `.error`. -/
def send_email_summary (cfg : Config) (transport : Except String Unit)
    (call_sid : String) (summary_content : String) : Except String MailLog :=
  if cfg.sender_email.isNone || cfg.sender_password.isNone || cfg.receiver_email.isNone then
    Except.ok MailLog.notConfigured
  else
    match transport with
    | Except.ok _ => Except.ok MailLog.sentOk
    | Except.error e => Except.ok (MailLog.sendFailed e)

/-- Record of one invocation of `send_email_summary` by the status callback. -/
structure MailEvent where
  call_sid : String
  body : String
deriving DecidableEq

/-- `"\n".join(conversations[call_sid]["transcript"])`. -/
def joinTranscript (t : List Line) : String :=
  String.intercalate "\n" (t.map renderLine)

/-- Call statuses treated as terminal by `/status_callback`. -/
def terminalStatuses : List String :=
  ["completed", "busy", "no-answer", "failed"]

/-- The email body chosen by `/status_callback` for a given transcript,
depending on the summarizer oracle (`none` = `generate_content` raised). -/
def summaryBody (cfg : Config) (summaryOutcome : Option String)
    (call_sid : String) (full_transcript : String) : String :=
  if cfg.gemini then
    match summaryOutcome with
    | some summary => summary
    | none =>
        "LLM Summary Failed for Call " ++ call_sid ++ ".\n\nFull Transcript:\n" ++ full_transcript
  else
    "LLM not active. Raw Transcript for Call " ++ call_sid ++ ":\n" ++ full_transcript

/-- The `/status_callback` handler.  Returns the updated store, the list of
`send_email_summary` invocations made, and the mail log (if any); the whole
computation lives in `Except` so an exception escaping `send_email_summary`
would abort before `del conversations[call_sid]`. -/
def status_callback (cfg : Config) (summaryOutcome : Option String)
    (transport : Except String Unit) (store : Store)
    (call_sid : String) (call_status : String) :
    Except String (Store × List MailEvent × Option MailLog) :=
  if call_status ∈ terminalStatuses ∧ (store.find call_sid).isSome then
    match store.find call_sid with
    | some sess =>
        let full_transcript := joinTranscript sess.transcript
        let body := summaryBody cfg summaryOutcome call_sid full_transcript
        match send_email_summary cfg transport call_sid body with
        | Except.ok log =>
            Except.ok (store.erase call_sid, [{ call_sid := call_sid, body := body }], some log)
        | Except.error e => Except.error e
    | none => Except.ok (store, [], none)
  else
    Except.ok (store, [], none)

/-! ### Basic dictionary lemmas -/

theorem Store.find_set_self (s : Store) (sid : String) (v : Session) :
    (Store.set s sid v).find sid = some v := by
  induction s with
  | nil => simp [Store.set, Store.find]
  | cons p rest ih =>
      obtain ⟨k, w⟩ := p
      by_cases h : k = sid <;> simp [Store.set, Store.find, h, ih]

theorem Store.find_set_ne (s : Store) (sid k : String) (v : Session) (h : k ≠ sid) :
    (Store.set s sid v).find k = s.find k := by
  have hsk : sid ≠ k := Ne.symm h
  induction s with
  | nil => simp [Store.set, Store.find, hsk]
  | cons p rest ih =>
      obtain ⟨k2, w⟩ := p
      by_cases h2 : k2 = sid
      · subst h2
        simp [Store.set, Store.find, hsk]
      · by_cases h3 : k2 = k <;> simp [Store.set, Store.find, h2, h3, h, ih]

theorem Store.find_erase_self (s : Store) (sid : String) :
    (Store.erase s sid).find sid = none := by
  induction s with
  | nil => simp [Store.erase, Store.find]
  | cons p rest ih =>
      obtain ⟨k, w⟩ := p
      by_cases h : k = sid
      · simpa [Store.erase, List.filter_cons, h] using ih
      · simpa [Store.erase, Store.find, List.filter_cons, h] using ih

theorem Store.find_erase_ne (s : Store) (sid k : String) (h : k ≠ sid) :
    (Store.erase s sid).find k = s.find k := by
  induction s with
  | nil => simp [Store.erase, Store.find]
  | cons p rest ih =>
      obtain ⟨k2, w⟩ := p
      by_cases h2 : k2 = sid
      · have hsk : sid ≠ k := Ne.symm h
        simpa [Store.erase, Store.find, List.filter_cons, h2, hsk] using ih
      · by_cases h3 : k2 = k
        · simp [Store.erase, Store.find, List.filter_cons, h2, h3, h]
        · simpa [Store.erase, Store.find, List.filter_cons, h2, h3] using ih

/-! ### Branch equations for the handlers -/

theorem voice_new (store : Store) (sid : String) (h : store.find sid = none) :
    voice store sid =
      (store.set sid freshSession,
       [Verb.say initial_greeting, Verb.gather (gatherAction sid)]) := by
  simp [voice, h]

theorem voice_dup (store : Store) (sid : String) (sess : Session)
    (h : store.find sid = some sess) :
    voice store sid = (store, [Verb.gather (gatherAction sid)]) := by
  simp [voice, h]

theorem gather_input_untracked (cfg : Config) (c : Option String) (store : Store)
    (sid : String) (sp : Option String) (h : store.find sid = none) :
    gather_input cfg c store sid sp =
      (store, [Verb.say unknown_call_message, Verb.hangup]) := by
  simp [gather_input, h]

theorem gather_input_ok (cfg : Config) (reply : String) (store : Store)
    (sid : String) (sp : Option String) (sess : Session)
    (h : store.find sid = some sess) (h1 : speechTruthy sp = true)
    (h2 : cfg.gemini = true) :
    gather_input cfg (some reply) store sid sp =
      (store.set sid
        { transcript := sess.transcript
            ++ [{ speaker := Speaker.caller, text := renderSpeech sp }]
            ++ [{ speaker := Speaker.bot, text := reply }]
          llm_history := sess.llm_history
            ++ [{ role := "user", parts := renderSpeech sp }]
            ++ [{ role := "model", parts := reply }]
          listening := true },
       [Verb.say reply, Verb.gather (gatherAction sid)]) := by
  simp [gather_input, h, h1, h2]

theorem gather_input_llm_fail (cfg : Config) (store : Store)
    (sid : String) (sp : Option String) (sess : Session)
    (h : store.find sid = some sess) (h1 : speechTruthy sp = true)
    (h2 : cfg.gemini = true) :
    gather_input cfg none store sid sp =
      (store.set sid
        { transcript := sess.transcript
            ++ [{ speaker := Speaker.caller, text := renderSpeech sp }]
          llm_history := sess.llm_history
            ++ [{ role := "user", parts := renderSpeech sp }]
          listening := false },
       [Verb.say trouble_message, Verb.hangup]) := by
  simp [gather_input, h, h1, h2]

theorem gather_input_no_llm (cfg : Config) (c : Option String) (store : Store)
    (sid : String) (sp : Option String) (sess : Session)
    (h : store.find sid = some sess) (h2 : cfg.gemini = false) :
    gather_input cfg c store sid sp =
      (store.set sid
        { transcript := sess.transcript
            ++ [{ speaker := Speaker.caller, text := renderSpeech sp }]
          llm_history := sess.llm_history
          listening := false },
       [Verb.say ack_message, Verb.hangup]) := by
  simp [gather_input, h, h2]

theorem gather_input_silent (cfg : Config) (c : Option String) (store : Store)
    (sid : String) (sp : Option String) (sess : Session)
    (h : store.find sid = some sess) (h1 : speechTruthy sp = false)
    (h2 : cfg.gemini = true) :
    gather_input cfg c store sid sp =
      (store.set sid
        { transcript := sess.transcript
            ++ [{ speaker := Speaker.caller, text := renderSpeech sp }]
          llm_history := sess.llm_history
          listening := false },
       [Verb.say farewell_message, Verb.hangup]) := by
  simp [gather_input, h, h1, h2]

theorem send_ok (cfg : Config) (transport : Except String Unit)
    (call_sid body : String) :
    ∃ log, send_email_summary cfg transport call_sid body = Except.ok log := by
  unfold send_email_summary
  split
  · exact ⟨MailLog.notConfigured, rfl⟩
  · cases transport with
    | ok u => exact ⟨MailLog.sentOk, rfl⟩
    | error e => exact ⟨MailLog.sendFailed e, rfl⟩

theorem status_callback_terminal (cfg : Config) (so : Option String)
    (tr : Except String Unit) (store : Store) (sid st : String) (sess : Session)
    (h : store.find sid = some sess) (ht : st ∈ terminalStatuses) :
    ∃ log, status_callback cfg so tr store sid st =
      Except.ok (store.erase sid,
        [{ call_sid := sid,
           body := summaryBody cfg so sid (joinTranscript sess.transcript) }],
        some log) := by
  obtain ⟨log, hl⟩ :=
    send_ok cfg tr sid (summaryBody cfg so sid (joinTranscript sess.transcript))
  exact ⟨log, by simp [status_callback, h, ht, hl]⟩

theorem status_callback_untracked (cfg : Config) (so : Option String)
    (tr : Except String Unit) (store : Store) (sid st : String)
    (h : store.find sid = none) :
    status_callback cfg so tr store sid st = Except.ok (store, [], none) := by
  simp [status_callback, h]

theorem status_callback_nonterminal (cfg : Config) (so : Option String)
    (tr : Except String Unit) (store : Store) (sid st : String)
    (ht : st ∉ terminalStatuses) :
    status_callback cfg so tr store sid st = Except.ok (store, [], none) := by
  simp [status_callback, ht]

/-! ### Sample configurations for concrete instances -/

/-- A fully configured deployment: Gemini key and all mail settings present. -/
def cfgFull : Config :=
  { gemini := true
    sender_email := some "owner@example.com"
    sender_password := some "app-password"
    receiver_email := some "inbox@example.com" }

/-- A deployment without a Gemini API key (LLM features disabled). -/
def cfgNoLLM : Config :=
  { gemini := false
    sender_email := some "owner@example.com"
    sender_password := some "app-password"
    receiver_email := some "inbox@example.com" }

/-- A deployment with a Gemini key but no mail settings. -/
def cfgNoMail : Config :=
  { gemini := true
    sender_email := none
    sender_password := none
    receiver_email := none }

/-! ### C1 -/

/-- C1 (counterexample): with a tracked call and non-empty speech, when the
Gemini chat call raises, the stored `llm_history` (turn history) length is NOT
unchanged: it grew from 1 to 2 (the caller entry appended at line 172 of
`app.py` survives the exception), even though the handler does return the
trouble apology and hang up. -/
theorem C1_counterexample :
    ((gather_input cfgFull none [("CA1", freshSession)] "CA1" (some "hi")).1.find "CA1").map
        (fun s => s.llm_history.length) ≠ some freshSession.llm_history.length ∧
    ((gather_input cfgFull none [("CA1", freshSession)] "CA1" (some "hi")).1.find "CA1").map
        (fun s => s.llm_history.length) = some 2 ∧
    freshSession.llm_history.length = 1 ∧
    (gather_input cfgFull none [("CA1", freshSession)] "CA1" (some "hi")).2 =
      [Verb.say trouble_message, Verb.hangup] := by
  decide

/-- C1 (amended): for a tracked call with non-empty speech and the model
configured, if the Gemini chat call raises then `gather_input` responds with
the fixed trouble apology and hangs up (no further listening), the transcript
gains exactly the caller line, and `llm_history` gains exactly the caller
entry — its length grows by one rather than staying unchanged. -/
theorem C1_llm_failure_behavior (cfg : Config) (store : Store) (sid : String)
    (sp : Option String) (sess : Session) (h : store.find sid = some sess)
    (hsp : speechTruthy sp = true) (hg : cfg.gemini = true) :
    (gather_input cfg none store sid sp).2 = [Verb.say trouble_message, Verb.hangup] ∧
    (gather_input cfg none store sid sp).1.find sid =
      some { transcript := sess.transcript
               ++ [{ speaker := Speaker.caller, text := renderSpeech sp }]
             llm_history := sess.llm_history
               ++ [{ role := "user", parts := renderSpeech sp }]
             listening := false } := by
  rw [gather_input_llm_fail cfg store sid sp sess h hsp hg]
  exact ⟨rfl, Store.find_set_self store sid _⟩

/-- Witness for C1's amended theorem at a concrete failing turn. -/
theorem C1_llm_failure_witness :
    (gather_input cfgFull none [("CA2", freshSession)] "CA2" (some "hello")).2 =
      [Verb.say trouble_message, Verb.hangup] ∧
    (gather_input cfgFull none [("CA2", freshSession)] "CA2" (some "hello")).1.find "CA2" =
      some { transcript := freshSession.transcript
               ++ [{ speaker := Speaker.caller, text := renderSpeech (some "hello") }]
             llm_history := freshSession.llm_history
               ++ [{ role := "user", parts := renderSpeech (some "hello") }]
             listening := false } :=
  C1_llm_failure_behavior cfgFull [("CA2", freshSession)] "CA2" (some "hello")
    freshSession (by decide) (by decide) rfl

/-! ### C2 -/

/-- C2 (counterexample): starting the same call twice, the second `/voice`
response is only the gather verb: it does not contain the greeting say verb
that the first response contained, so the duplicate start does NOT return the
same fixed greeting as the first call. -/
theorem C2_counterexample :
    Verb.say initial_greeting ∈ (voice [] "CA1").2 ∧
    (voice (voice [] "CA1").1 "CA1").2 = [Verb.gather (gatherAction "CA1")] ∧
    Verb.say initial_greeting ∉ (voice (voice [] "CA1").1 "CA1").2 := by
  decide

/-- C2 (amended): `begin_call` is idempotent on a tracked call_id in state:
a second `/voice` for an already-tracked sid leaves the store completely
unchanged (no second session, no appended greeting turn in transcript or
`llm_history`, no reset), but its response is only the gather directive —
the greeting is not spoken again. -/
theorem C2_duplicate_start_idempotent (store : Store) (sid : String)
    (sess : Session) (h : store.find sid = some sess) :
    (voice store sid).1 = store ∧
    (voice store sid).2 = [Verb.gather (gatherAction sid)] := by
  rw [voice_dup store sid sess h]
  exact ⟨rfl, rfl⟩

/-- Witness for C2's amended theorem: duplicate start of a tracked call. -/
theorem C2_duplicate_start_witness :
    (voice [("CA1", freshSession)] "CA1").1 = [("CA1", freshSession)] ∧
    (voice [("CA1", freshSession)] "CA1").2 = [Verb.gather (gatherAction "CA1")] :=
  C2_duplicate_start_idempotent [("CA1", freshSession)] "CA1" freshSession (by decide)

/-! ### C3 -/

/-- C3 (counterexample): with the Gemini model NOT configured, a tracked call
with absent speech gets the acknowledgment message ("Thank you. I have
received your message."), not the farewell — the farewell branch is shadowed
by the `elif not GEMINI_MODEL` branch of `gather_input`. -/
theorem C3_counterexample :
    (gather_input cfgNoLLM none [("CA1", freshSession)] "CA1" none).2 =
      [Verb.say ack_message, Verb.hangup] ∧
    ack_message ≠ farewell_message := by
  decide

/-- C3 (amended): for a tracked call with absent or empty speech,
`gather_input` never consults the LLM chat oracle (the result is the same for
every oracle value) and always hangs up without further gathering; the spoken
message is the farewell when the Gemini model is configured, but the
acknowledgment message when it is not. -/
theorem C3_empty_speech_behavior (cfg : Config) (store : Store) (sid : String)
    (sp : Option String) (sess : Session) (h : store.find sid = some sess)
    (hsp : speechTruthy sp = false) :
    (∀ c1 c2 : Option String,
      gather_input cfg c1 store sid sp = gather_input cfg c2 store sid sp) ∧
    (cfg.gemini = true →
      (gather_input cfg none store sid sp).2 = [Verb.say farewell_message, Verb.hangup]) ∧
    (cfg.gemini = false →
      (gather_input cfg none store sid sp).2 = [Verb.say ack_message, Verb.hangup]) := by
  by_cases hg : cfg.gemini = true
  · refine ⟨?_, ?_, ?_⟩
    · intro c1 c2
      rw [gather_input_silent cfg c1 store sid sp sess h hsp hg,
          gather_input_silent cfg c2 store sid sp sess h hsp hg]
    · intro _
      rw [gather_input_silent cfg none store sid sp sess h hsp hg]
    · intro hng
      rw [hg] at hng
      exact absurd hng (by simp)
  · have hg2 : cfg.gemini = false := by simpa using hg
    refine ⟨?_, ?_, ?_⟩
    · intro c1 c2
      rw [gather_input_no_llm cfg c1 store sid sp sess h hg2,
          gather_input_no_llm cfg c2 store sid sp sess h hg2]
    · intro hgt
      rw [hg2] at hgt
      exact absurd hgt (by simp)
    · intro _
      rw [gather_input_no_llm cfg none store sid sp sess h hg2]

/-- Witness for C3's amended theorem: configured model, absent speech. -/
theorem C3_empty_speech_witness :
    (∀ c1 c2 : Option String,
      gather_input cfgFull c1 [("CA1", freshSession)] "CA1" none =
      gather_input cfgFull c2 [("CA1", freshSession)] "CA1" none) ∧
    (cfgFull.gemini = true →
      (gather_input cfgFull none [("CA1", freshSession)] "CA1" none).2 =
        [Verb.say farewell_message, Verb.hangup]) ∧
    (cfgFull.gemini = false →
      (gather_input cfgFull none [("CA1", freshSession)] "CA1" none).2 =
        [Verb.say ack_message, Verb.hangup]) :=
  C3_empty_speech_behavior cfgFull [("CA1", freshSession)] "CA1" none
    freshSession (by decide) rfl

/-! ### C8 -/

/-- C8: `send_email_summary` never propagates an error to its caller: it
always returns `Except.ok`; if sender address, sender credential or recipient
address is missing it returns the `notConfigured` log whatever the transport
oracle is (so no delivery is attempted) and that log is non-success; and a
transport failure is swallowed into the `sendFailed` log instead of being
re-raised. -/
theorem C8_send_email_summary_never_raises (cfg : Config)
    (transport : Except String Unit) (call_sid body : String) :
    (∃ log, send_email_summary cfg transport call_sid body = Except.ok log) ∧
    ((cfg.sender_email.isNone || cfg.sender_password.isNone || cfg.receiver_email.isNone) = true →
      (∀ tr2 : Except String Unit,
        send_email_summary cfg tr2 call_sid body = Except.ok MailLog.notConfigured) ∧
      MailLog.notConfigured ≠ MailLog.sentOk) ∧
    (∀ e : String,
      (cfg.sender_email.isNone || cfg.sender_password.isNone || cfg.receiver_email.isNone) = false →
      transport = Except.error e →
      send_email_summary cfg transport call_sid body =
        Except.ok (MailLog.sendFailed e)) := by
  refine ⟨send_ok cfg transport call_sid body, ?_, ?_⟩
  · intro hmiss
    exact ⟨fun tr2 => by simp [send_email_summary, hmiss], by decide⟩
  · intro e hconf htr
    subst htr
    simp [send_email_summary, hconf]

/-- Witness for C8: unconfigured mail plus a failing transport still reports
the deliberate no-op, with no exception. -/
theorem C8_witness :
    send_email_summary cfgNoMail (Except.error "boom") "CA1" "body" =
      Except.ok MailLog.notConfigured :=
  ((C8_send_email_summary_never_raises cfgNoMail (Except.error "boom") "CA1" "body").2.1
    (by decide)).1 (Except.error "boom")

/-! ### C9 -/

/-- C9: for a tracked call sid, `gather_input` appends a caller-tagged line to
the stored transcript unconditionally, before any branching on the speech
content — whatever the speech value and chat oracle, the new transcript is the
old transcript, then the caller line, then possibly more — and an absent
speech field renders as the literal transcript text `Caller: None`. -/
theorem C9_transcript_always_appended (cfg : Config) (chatOutcome : Option String)
    (store : Store) (sid : String) (sp : Option String) (sess : Session)
    (h : store.find sid = some sess) :
    (∃ sess2 rest, (gather_input cfg chatOutcome store sid sp).1.find sid = some sess2 ∧
      sess2.transcript =
        sess.transcript ++ [{ speaker := Speaker.caller, text := renderSpeech sp }] ++ rest) ∧
    renderLine { speaker := Speaker.caller, text := renderSpeech none } = "Caller: None" := by
  refine ⟨?_, rfl⟩
  by_cases hg : cfg.gemini = true
  · by_cases hsp : speechTruthy sp = true
    · cases chatOutcome with
      | some reply =>
          rw [gather_input_ok cfg reply store sid sp sess h hsp hg]
          exact ⟨_, [{ speaker := Speaker.bot, text := reply }],
            Store.find_set_self store sid _, rfl⟩
      | none =>
          rw [gather_input_llm_fail cfg store sid sp sess h hsp hg]
          exact ⟨_, [], Store.find_set_self store sid _, by simp⟩
    · have hsp2 : speechTruthy sp = false := by simpa using hsp
      rw [gather_input_silent cfg chatOutcome store sid sp sess h hsp2 hg]
      exact ⟨_, [], Store.find_set_self store sid _, by simp⟩
  · have hg2 : cfg.gemini = false := by simpa using hg
    rw [gather_input_no_llm cfg chatOutcome store sid sp sess h hg2]
    exact ⟨_, [], Store.find_set_self store sid _, by simp⟩

/-- Witness for C9: a fresh session receiving an absent speech field. -/
theorem C9_witness :
    (∃ sess2 rest,
      (gather_input cfgFull none [("CA1", freshSession)] "CA1" none).1.find "CA1" = some sess2 ∧
      sess2.transcript =
        freshSession.transcript
          ++ [{ speaker := Speaker.caller, text := renderSpeech none }] ++ rest) ∧
    renderLine { speaker := Speaker.caller, text := renderSpeech none } = "Caller: None" :=
  C9_transcript_always_appended cfgFull none [("CA1", freshSession)] "CA1" none
    freshSession (by decide)

/-! ### C10 -/

/-- C10: every `/voice` response contains the gather verb whose action URL
carries the call sid, and never a hangup; and when the sid is already tracked
(duplicate start event) the response is exactly the gather verb, with no
spoken greeting. -/
theorem C10_voice_always_gathers (store : Store) (sid : String) :
    Verb.gather (gatherAction sid) ∈ (voice store sid).2 ∧
    Verb.hangup ∉ (voice store sid).2 ∧
    ((store.find sid).isSome = true →
      (voice store sid).2 = [Verb.gather (gatherAction sid)]) := by
  cases hfind : store.find sid with
  | none => simp [voice_new store sid hfind, hfind]
  | some sess => simp [voice_dup store sid sess hfind, hfind]

/-- Witness for C10 on a store already tracking the sid. -/
theorem C10_witness :
    Verb.gather (gatherAction "CA1") ∈ (voice [("CA1", freshSession)] "CA1").2 ∧
    Verb.hangup ∉ (voice [("CA1", freshSession)] "CA1").2 ∧
    ((Store.find [("CA1", freshSession)] "CA1").isSome = true →
      (voice [("CA1", freshSession)] "CA1").2 = [Verb.gather (gatherAction "CA1")]) :=
  C10_voice_always_gathers [("CA1", freshSession)] "CA1"

/-! ### C4 -/

/-- C4: `end_call` is safe to call twice for the same call_id: the first
terminal status for a tracked call invokes the mail notifier exactly once and
removes the session; a second terminal status for the same id leaves the store
untouched and makes no further mail notifier invocation. -/
theorem C4_double_termination_sends_one_email (cfg : Config)
    (so1 so2 : Option String) (tr1 tr2 : Except String Unit) (store : Store)
    (sid st1 st2 : String) (sess : Session) (h : store.find sid = some sess)
    (ht1 : st1 ∈ terminalStatuses) (ht2 : st2 ∈ terminalStatuses) :
    ∃ s1 ev1 lg1,
      status_callback cfg so1 tr1 store sid st1 = Except.ok (s1, ev1, lg1) ∧
      ev1.length = 1 ∧
      status_callback cfg so2 tr2 s1 sid st2 = Except.ok (s1, [], none) := by
  obtain ⟨log, h1⟩ := status_callback_terminal cfg so1 tr1 store sid st1 sess h ht1
  refine ⟨store.erase sid, _, some log, h1, rfl, ?_⟩
  exact status_callback_untracked cfg so2 tr2 (store.erase sid) sid st2
    (Store.find_erase_self store sid)

/-- Witness for C4: two `completed` events for the same tracked call. -/
theorem C4_witness :
    ∃ s1 ev1 lg1,
      status_callback cfgFull none (Except.error "x") [("CA1", freshSession)]
        "CA1" "completed" = Except.ok (s1, ev1, lg1) ∧
      ev1.length = 1 ∧
      status_callback cfgFull none (Except.error "x") s1 "CA1" "completed" =
        Except.ok (s1, [], none) :=
  C4_double_termination_sends_one_email cfgFull none none (Except.error "x")
    (Except.error "x") [("CA1", freshSession)] "CA1" "completed" "completed"
    freshSession (by decide) (by decide) (by decide)

/-! ### C5 -/

/-- C5: a terminal status for a tracked call always removes the session from
the store — whatever the summarizer oracle and the mail transport oracle did —
and afterwards the id is no longer tracked. -/
theorem C5_terminal_always_deletes (cfg : Config) (so : Option String)
    (tr : Except String Unit) (store : Store) (sid st : String) (sess : Session)
    (h : store.find sid = some sess) (ht : st ∈ terminalStatuses) :
    ∃ ev lg, status_callback cfg so tr store sid st =
        Except.ok (store.erase sid, ev, lg) ∧
      (store.erase sid).find sid = none := by
  obtain ⟨log, h1⟩ := status_callback_terminal cfg so tr store sid st sess h ht
  exact ⟨_, some log, h1, Store.find_erase_self store sid⟩

/-- Witness for C5: a `failed` status with a raising summarizer and a raising
transport still deletes the session. -/
theorem C5_witness :
    ∃ ev lg, status_callback cfgFull none (Except.error "smtp down")
        [("CA9", freshSession)] "CA9" "failed" =
        Except.ok (Store.erase [("CA9", freshSession)] "CA9", ev, lg) ∧
      (Store.erase [("CA9", freshSession)] "CA9").find "CA9" = none :=
  C5_terminal_always_deletes cfgFull none (Except.error "smtp down")
    [("CA9", freshSession)] "CA9" "failed" freshSession (by decide) (by decide)

/-! ### C6 -/

/-- C6: when a tracked call terminates and the LLM is unavailable
(`gemini = false`) or its summarization raised (`so = none`), the status
callback still invokes the mail notifier with a body, and that body is the
raw joined transcript prefixed by a fallback label. -/
theorem C6_summary_falls_back_to_transcript (cfg : Config) (so : Option String)
    (tr : Except String Unit) (store : Store) (sid st : String) (sess : Session)
    (h : store.find sid = some sess) (ht : st ∈ terminalStatuses)
    (hfail : cfg.gemini = false ∨ so = none) :
    ∃ s2 lg body,
      status_callback cfg so tr store sid st =
        Except.ok (s2, [{ call_sid := sid, body := body }], some lg) ∧
      (cfg.gemini = true →
        body = "LLM Summary Failed for Call " ++ sid ++ ".\n\nFull Transcript:\n"
          ++ joinTranscript sess.transcript) ∧
      (cfg.gemini = false →
        body = "LLM not active. Raw Transcript for Call " ++ sid ++ ":\n"
          ++ joinTranscript sess.transcript) := by
  obtain ⟨log, h1⟩ := status_callback_terminal cfg so tr store sid st sess h ht
  refine ⟨store.erase sid, log, _, h1, ?_, ?_⟩
  · intro hg
    rcases hfail with hf | hf
    · rw [hf] at hg
      exact absurd hg (by simp)
    · subst hf
      simp [summaryBody, hg]
  · intro hg
    simp [summaryBody, hg]

/-- Witness for C6: unconfigured LLM, terminating call. -/
theorem C6_witness :
    ∃ s2 lg body,
      status_callback cfgNoLLM (some "unused") (Except.ok ())
        [("CA1", freshSession)] "CA1" "no-answer" =
        Except.ok (s2, [{ call_sid := "CA1", body := body }], some lg) ∧
      (cfgNoLLM.gemini = true →
        body = "LLM Summary Failed for Call " ++ "CA1" ++ ".\n\nFull Transcript:\n"
          ++ joinTranscript freshSession.transcript) ∧
      (cfgNoLLM.gemini = false →
        body = "LLM not active. Raw Transcript for Call " ++ "CA1" ++ ":\n"
          ++ joinTranscript freshSession.transcript) :=
  C6_summary_falls_back_to_transcript cfgNoLLM (some "unused") (Except.ok ())
    [("CA1", freshSession)] "CA1" "no-answer" freshSession (by decide) (by decide)
    (Or.inl rfl)

/-! ### C7: reachable-state invariant -/

/-- The speaker of the last transcript line, if any. -/
def lastSpeaker (t : List Line) : Option Speaker :=
  t.getLast?.map Line.speaker

/-- Adjacent transcript lines are never both caller lines. -/
def okPair (a b : Line) : Prop :=
  ¬(a.speaker = Speaker.caller ∧ b.speaker = Speaker.caller)

/-- No caller line is immediately followed by another caller line. -/
def noCallerCaller (t : List Line) : Prop :=
  List.Chain' okPair t

theorem noCallerCaller_snoc_bot (t : List Line) (x : String)
    (h : noCallerCaller t) :
    noCallerCaller (t ++ [{ speaker := Speaker.bot, text := x }]) := by
  rw [noCallerCaller, List.chain'_append]
  refine ⟨h, List.chain'_singleton _, ?_⟩
  intro a ha b hb
  simp only [List.head?_cons, Option.mem_def, Option.some.injEq] at hb
  subst hb
  simp [okPair]

theorem noCallerCaller_snoc_caller (t : List Line) (x : String)
    (h : noCallerCaller t) (hl : lastSpeaker t = some Speaker.bot) :
    noCallerCaller (t ++ [{ speaker := Speaker.caller, text := x }]) := by
  rw [noCallerCaller, List.chain'_append]
  refine ⟨h, List.chain'_singleton _, ?_⟩
  intro a ha b hb
  simp only [List.head?_cons, Option.mem_def, Option.some.injEq] at hb
  subst hb
  have hab : a.speaker = Speaker.bot := by
    unfold lastSpeaker at hl
    cases hgl : t.getLast? with
    | none =>
        rw [hgl] at ha
        exact (Option.not_mem_none a ha).elim
    | some z =>
        rw [hgl] at ha hl
        have haz : z = a := by simpa [Option.mem_def] using ha
        subst haz
        simpa using hl
  simp [okPair, hab]

theorem lastSpeaker_snoc (t : List Line) (c : Line) :
    lastSpeaker (t ++ [c]) = some c.speaker := by
  simp [lastSpeaker]

theorem head?_append_left {α : Type} (l l2 : List α) (a : α)
    (h : l.head? = some a) : (l ++ l2).head? = some a := by
  cases l with
  | nil => simp at h
  | cons x xs => simpa using h

/-- The three-part session invariant from the claim. -/
def SessionInv (sess : Session) : Prop :=
  sess.llm_history.head? = some systemMsg ∧
  sess.llm_history.length - 1 ≤ sess.transcript.length ∧
  noCallerCaller sess.transcript

/-- `SessionInv` strengthened with the listening/last-speaker linkage needed
for the induction: while the call is still gathering, the transcript ends with
an assistant (bot) line. -/
def SessionInvStrong (sess : Session) : Prop :=
  SessionInv sess ∧
  (sess.listening = true → lastSpeaker sess.transcript = some Speaker.bot)

/-- Every tracked session satisfies the strong invariant. -/
def StoreInv (s : Store) : Prop :=
  ∀ sid sess, s.find sid = some sess → SessionInvStrong sess

theorem freshSession_inv : SessionInvStrong freshSession := by
  refine ⟨⟨rfl, by simp [freshSession], ?_⟩, ?_⟩
  · exact List.chain'_singleton _
  · intro _
    simp [lastSpeaker, freshSession]

theorem storeInv_set (s : Store) (sid : String) (v : Session)
    (hs : StoreInv s) (hv : SessionInvStrong v) : StoreInv (s.set sid v) := by
  intro k sess hk
  by_cases hks : k = sid
  · subst hks
    rw [Store.find_set_self] at hk
    cases hk
    exact hv
  · rw [Store.find_set_ne s sid k v hks] at hk
    exact hs k sess hk

theorem storeInv_erase (s : Store) (sid : String) (hs : StoreInv s) :
    StoreInv (s.erase sid) := by
  intro k sess hk
  by_cases hks : k = sid
  · subst hks
    rw [Store.find_erase_self] at hk
    cases hk
  · rw [Store.find_erase_ne s sid k hks] at hk
    exact hs k sess hk

/-- The store after `/status_callback` is the old store or the old store with
the call sid deleted. -/
theorem status_callback_store (cfg : Config) (so : Option String)
    (tr : Except String Unit) (s : Store) (sid st : String) (s2 : Store)
    (ev : List MailEvent) (lg : Option MailLog)
    (h : status_callback cfg so tr s sid st = Except.ok (s2, ev, lg)) :
    s2 = s ∨ s2 = s.erase sid := by
  by_cases hc : st ∈ terminalStatuses ∧ (s.find sid).isSome = true
  · obtain ⟨ht, hsome⟩ := hc
    obtain ⟨sess, hsess⟩ := Option.isSome_iff_exists.mp hsome
    obtain ⟨log, h1⟩ := status_callback_terminal cfg so tr s sid st sess hsess ht
    rw [h1] at h
    simp only [Except.ok.injEq, Prod.mk.injEq] at h
    exact Or.inr h.1.symm
  · have hskip : status_callback cfg so tr s sid st = Except.ok (s, [], none) := by
      unfold status_callback
      rw [if_neg hc]
    rw [hskip] at h
    simp only [Except.ok.injEq, Prod.mk.injEq] at h
    exact Or.inl h.1.symm

/-- One webhook delivery, as a transition on the session store.  A speech
event can only be delivered for a call whose current state is still listening
(Twilio posts the gather callback only from an armed gather on a live call);
call-start and status events carry no such constraint. -/
inductive Step (cfg : Config) : Store → Store → Prop
  | start (s : Store) (sid : String) :
      Step cfg s (voice s sid).1
  | speech (s : Store) (sid : String) (sp chat : Option String)
      (hl : ∀ sess, s.find sid = some sess → sess.listening = true) :
      Step cfg s (gather_input cfg chat s sid sp).1
  | callStatus (s s2 : Store) (sid st : String) (so : Option String)
      (tr : Except String Unit) (ev : List MailEvent) (lg : Option MailLog)
      (h : status_callback cfg so tr s sid st = Except.ok (s2, ev, lg)) :
      Step cfg s s2

/-- Stores reachable from the empty store through webhook deliveries. -/
inductive Reachable (cfg : Config) : Store → Prop
  | init : Reachable cfg []
  | step (s s2 : Store) (h1 : Reachable cfg s) (h2 : Step cfg s s2) :
      Reachable cfg s2

theorem stepInv (cfg : Config) (s s2 : Store) (hs : StoreInv s)
    (hstep : Step cfg s s2) : StoreInv s2 := by
  cases hstep with
  | start sid =>
      cases hfind : s.find sid with
      | none =>
          rw [voice_new s sid hfind]
          exact storeInv_set s sid freshSession hs freshSession_inv
      | some sess =>
          rw [voice_dup s sid sess hfind]
          exact hs
  | speech sid sp chat hl =>
      cases hfind : s.find sid with
      | none =>
          rw [gather_input_untracked cfg chat s sid sp hfind]
          exact hs
      | some sess =>
          have hlist : sess.listening = true := hl sess hfind
          obtain ⟨⟨hhead, hlen, hchain⟩, hlast⟩ := hs sid sess hfind
          have hlastb := hlast hlist
          by_cases hg : cfg.gemini = true
          · by_cases hsp : speechTruthy sp = true
            · cases chat with
              | some reply =>
                  rw [gather_input_ok cfg reply s sid sp sess hfind hsp hg]
                  apply storeInv_set s sid _ hs
                  refine ⟨⟨?_, ?_, ?_⟩, ?_⟩
                  · exact head?_append_left _ _ _ (head?_append_left _ _ _ hhead)
                  · simp only [List.length_append, List.length_singleton]
                    omega
                  · exact noCallerCaller_snoc_bot _ _
                      (noCallerCaller_snoc_caller _ _ hchain hlastb)
                  · intro _
                    exact lastSpeaker_snoc _ _
              | none =>
                  rw [gather_input_llm_fail cfg s sid sp sess hfind hsp hg]
                  apply storeInv_set s sid _ hs
                  refine ⟨⟨?_, ?_, ?_⟩, ?_⟩
                  · exact head?_append_left _ _ _ hhead
                  · simp only [List.length_append, List.length_singleton]
                    omega
                  · exact noCallerCaller_snoc_caller _ _ hchain hlastb
                  · simp
            · have hsp2 : speechTruthy sp = false := by simpa using hsp
              rw [gather_input_silent cfg chat s sid sp sess hfind hsp2 hg]
              apply storeInv_set s sid _ hs
              refine ⟨⟨hhead, ?_, ?_⟩, ?_⟩
              · simp only [List.length_append, List.length_singleton]
                omega
              · exact noCallerCaller_snoc_caller _ _ hchain hlastb
              · simp
          · have hg2 : cfg.gemini = false := by simpa using hg
            rw [gather_input_no_llm cfg chat s sid sp sess hfind hg2]
            apply storeInv_set s sid _ hs
            refine ⟨⟨hhead, ?_, ?_⟩, ?_⟩
            · simp only [List.length_append, List.length_singleton]
              omega
            · exact noCallerCaller_snoc_caller _ _ hchain hlastb
            · simp
  | callStatus s2 sid st so tr ev lg h =>
      obtain h2 | h2 := status_callback_store cfg so tr s sid st s2 ev lg h
      · rw [h2]
        exact hs
      · rw [h2]
        exact storeInv_erase s sid hs

theorem reachable_storeInv (cfg : Config) (s : Store) (h : Reachable cfg s) :
    StoreInv s := by
  induction h with
  | init =>
      intro sid sess hfind
      simp [Store.find] at hfind
  | step s1 s2 hr hstep ih =>
      exact stepInv cfg s1 s2 ih hstep

/-- C7: in every store reachable through the `/voice`, `/gather_input` and
`/status_callback` handlers, every tracked session has the fixed system
instruction as `llm_history[0]`, a transcript at least as long as
`llm_history` minus one, and no caller transcript line immediately followed by
another caller line. -/
theorem C7_reachable_session_invariant (cfg : Config) (store : Store)
    (h : Reachable cfg store) (sid : String) (sess : Session)
    (hf : store.find sid = some sess) :
    sess.llm_history.head? = some systemMsg ∧
    sess.llm_history.length - 1 ≤ sess.transcript.length ∧
    noCallerCaller sess.transcript :=
  (reachable_storeInv cfg store h sid sess hf).1

/-- Witness for C7: the store reached by one call-start event. -/
theorem C7_witness :
    freshSession.llm_history.head? = some systemMsg ∧
    freshSession.llm_history.length - 1 ≤ freshSession.transcript.length ∧
    noCallerCaller freshSession.transcript :=
  C7_reachable_session_invariant cfgFull (voice [] "CA1").1
    (Reachable.step [] (voice [] "CA1").1 Reachable.init (Step.start [] "CA1"))
    "CA1" freshSession (by decide)

end PhoneAssistant
